import Mathlib

/-!
Verification development for the ECLS-K fixed-width extraction and merge
scripts.  The repository contains four near-duplicate extraction scripts
(`extract_ecls_variables.py`, `code/extraction0.py`, `code/extraction1.py`,
`code/data_extraction.py`); this file gives a shallow embedding of the
schema parsing, field decoding, record accumulation, and table-merge logic
of each variant, and proves or refutes the frozen specification claims
about them.

Python built-ins are modelled over `List Char` / `String.mk` so that every
definition evaluates by kernel reduction:
  * `str.strip()`            -> `pyStrip` / `stripChars`
  * `str.rstrip(chr)`        -> `rstripNl` (only the newline call site exists)
  * `str.split()`            -> `pySplitWs` (split on whitespace runs,
                                 empty tokens dropped)
  * `str.upper()/lower()`    -> `upperStr` / `lowerStr` (ASCII data)
  * `s[a:b]` slicing         -> `pySlice` (non-negative indices, clamped)
  * `int(s)`                 -> `pyIntChars?` (optional sign followed by a
                                 digit run; the dictionaries and data never
                                 use underscores or surrounding whitespace
                                 at these call sites, which are stripped
                                 first)
  * `re.search(r"_line\((\d+)\)", s)` and the `_column` analogue
                             -> `searchMarker` (the pattern is a literal
                                 prefix, a nonempty digit run, then a
                                 closing parenthesis, so backtracking
                                 search is equivalent to this scan)
-/

/-- Does `pat` occur as a prefix of `l`? -/
def listStartsWith : List Char → List Char → Bool
  | [], _ => true
  | _ :: _, [] => false
  | p :: ps, c :: cs => p = c && listStartsWith ps cs

/-- Python `pat in s` substring test, over char lists. -/
def containsSub (pat : List Char) : List Char → Bool
  | [] => listStartsWith pat []
  | c :: cs => listStartsWith pat (c :: cs) || containsSub pat cs

/-- Value of a digit run, most significant first. -/
def digitsToNat (ds : List Char) : Nat :=
  ds.foldl (fun n c => n * 10 + (c.toNat - 48)) 0

/-- Python `int(s)` on an already-stripped string: optional sign then a
nonempty digit run; anything else raises `ValueError`, modelled as `none`. -/
def pyIntChars? : List Char → Option Int
  | [] => none
  | '-' :: ds =>
    if ds ≠ [] ∧ ds.all Char.isDigit then some (-(digitsToNat ds : Int)) else none
  | '+' :: ds =>
    if ds ≠ [] ∧ ds.all Char.isDigit then some ((digitsToNat ds : Int)) else none
  | ds =>
    if ds.all Char.isDigit then some ((digitsToNat ds : Int)) else none

/-- Unsigned variant used for the `strN` width suffix (`int(var_type[3:])`);
real dictionaries only ever carry an unsigned numeral there. -/
def pyNatChars? (ds : List Char) : Option Nat :=
  if ds ≠ [] ∧ ds.all Char.isDigit then some (digitsToNat ds) else none

/-- Whitespace-run splitter: tail of Python `str.split()`. -/
def splitWsAux : List Char → List Char → List (List Char)
  | [], acc => if acc = [] then [] else [acc.reverse]
  | c :: cs, acc =>
    if c.isWhitespace then
      if acc = [] then splitWsAux cs [] else acc.reverse :: splitWsAux cs []
    else splitWsAux cs (c :: acc)

/-- Python `str.split()` with no argument: tokens between whitespace runs. -/
def pySplitWs (s : String) : List String :=
  (splitWsAux s.data []).map String.mk

/-- Python `str.strip()` on char lists. -/
def stripChars (l : List Char) : List Char :=
  ((l.dropWhile Char.isWhitespace).reverse.dropWhile Char.isWhitespace).reverse

/-- Python `str.strip()`. -/
def pyStrip (s : String) : String := String.mk (stripChars s.data)

/-- Python `str.rstrip(chr)` for the newline-stripping call sites. -/
def rstripNl (s : String) : String :=
  String.mk ((s.data.reverse.dropWhile (· = '\n')).reverse)

/-- Python `str.upper()` (ASCII dictionary/data). -/
def upperStr (s : String) : String := String.mk (s.data.map Char.toUpper)

/-- Python `str.lower()` (ASCII dictionary/data). -/
def lowerStr (s : String) : String := String.mk (s.data.map Char.toLower)

/-- Python slice `l[a:b]` for non-negative `a ≤ b` bounds: both ends clamp
to the actual length, and an out-of-range start yields the empty string. -/
def pySlice (l : List Char) (a b : Nat) : List Char :=
  (l.drop a).take (b - a)

/-- Try to match `pat ++ digits+ ++ ")"` at the head of `l`, returning the
numeral.  This is `re.match` of `pat\((\d+)\)` anchored at one position
(the patterns used always end in the opening parenthesis). -/
def matchMarkerAt (pat : List Char) (l : List Char) : Option Nat :=
  if listStartsWith pat l then
    let rest := l.drop pat.length
    let ds := rest.takeWhile Char.isDigit
    if ds = [] then none
    else
      match rest.drop ds.length with
      | ')' :: _ => some (digitsToNat ds)
      | _ => none
  else none

/-- `re.search` for `pat(\d+)` followed by a closing parenthesis: first
position whose suffix matches. -/
def searchMarker (pat : List Char) : List Char → Option Nat
  | [] => none
  | c :: cs =>
    match matchMarkerAt pat (c :: cs) with
    | some n => some n
    | none => searchMarker pat cs

/-- The `_line(` literal of the record-line marker regex. -/
def lineMarkerPat : List Char := ['_', 'l', 'i', 'n', 'e', '(']

/-- The `_column(` literal of the column-position marker regex. -/
def colMarkerPat : List Char := ['_', 'c', 'o', 'l', 'u', 'm', 'n', '(']

/-- The bare `_column` substring used by the `next(...)` token scans. -/
def columnWord : List Char := ['_', 'c', 'o', 'l', 'u', 'm', 'n']

/-! ## Field decoding (numeric branches of the four scripts)

`extract_ecls_variables.py` lines 133-144 and `extraction0.py` lines
137-148 convert a stripped raw substring with
`int(value) if value else None` (resp. `float`), catching `ValueError`;
there is no sentinel handling.  `data_extraction.py` lines 192-207 and
`extraction1.py` lines 232-247 guard with a sentinel list first.  The
numeric parse itself is irrelevant to the sentinel claims, so the two
guarded variants are parametrised by the parse function and instantiated
with `pyIntChars?` for the integer branch. -/

/-- Integer decode of `extract_ecls_variables.py` / `extraction0.py`:
`int(value) if value else None`, `ValueError` giving `None`. -/
def decodeIntEcls (value : String) : Option Int :=
  if value = "" then none else pyIntChars? value.data

/-- Sentinel list of `data_extraction.py` (lines 193 and 201). -/
def sentinelsDX : List String := ["-9", "-8", "-7", "-1", ""]

/-- Numeric decode of `data_extraction.py`: the value is parsed only when
it is truthy and not in the sentinel list, otherwise `np.nan` (here
`none`); a parse failure also degrades to `none`. -/
def decodeNumDX {α : Type} (parse : String → Option α) (rawValue : String) : Option α :=
  if rawValue ≠ "" ∧ rawValue ∉ sentinelsDX then parse rawValue else none

/-- Sentinel set of `extraction1.py` (lines 233 and 241). -/
def sentinels1 : List String := ["-9", "-8", "-7", "-4", "-3", "-2", "-1"]

/-- Numeric decode of `extraction1.py`: empty or sentinel gives `None`,
otherwise parse with `ValueError` degrading to `None`. -/
def decodeNum1 {α : Type} (parse : String → Option α) (valueStr : String) : Option α :=
  if valueStr = "" ∨ valueStr ∈ sentinels1 then none else parse valueStr

/-! ## Substring windowing (Field Decoder slicing)

`data_extraction.py` lines 182-189 guard the slice explicitly;
`extract_ecls_variables.py` line 130 and `extraction0.py` line 135 rely on
Python slice clamping directly. -/

/-- The guarded substring extraction of `data_extraction.py`:
`if len(line_text) > col_start: ... line_text[col_start:col_end] ...
else raw_value = ""` (the `strip()` is applied afterwards by the caller). -/
def rawSliceDX (lineText : List Char) (colStart colEnd : Nat) : List Char :=
  if lineText.length > colStart then
    if lineText.length ≥ colEnd then pySlice lineText colStart colEnd
    else lineText.drop colStart
  else []

/-! ## Schema data model -/

/-- Declared type of a field after the scripts' type mapping. -/
inductive Dtype : Type where
  | str : Dtype
  | int : Dtype
  | float : Dtype
deriving DecidableEq, Repr

/-- One parsed field specification (`var_specs` entries of the scripts):
name (upper-cased), 1-based record line, 1-based starting column, width in
characters, and mapped type. -/
structure VarSpec : Type where
  name : String
  line : Nat
  col : Nat
  width : Nat
  dtype : Dtype
deriving DecidableEq, Repr

/-- Window selection of `data_extraction.py` lines 173-189 for one spec:
`col_start = spec["column"] - 1`, `col_end = col_start + spec["width"]`,
then the guarded slice. -/
def fieldWindowDX (spec : VarSpec) (lineText : List Char) : List Char :=
  rawSliceDX lineText (spec.col - 1) (spec.col - 1 + spec.width)

/-! ## Schema Parser, declared-type width policy
(`extract_ecls_variables.py` lines 44-92; `extraction0.py` lines 61-104 is
the same loop with a different required list) -/

/-- `REQUIRED_VARS` of `extract_ecls_variables.py` (lines 10-38). -/
def REQUIRED_VARS_ECLS : List String :=
  ["X1FSRAW", "X2FSRAW", "X4FSRAW", "X6FSRAW", "X7FSRAW", "X8FSRAW", "X9FSRAW",
   "X1FSCMBI", "X2FSCMBI", "X4FSCMBI", "X6FSCMBI", "X7FSCMBI", "X8FSCMBI", "X9FSCMBI",
   "X1RSCALK5", "X2RSCALK5", "X3RSCALK5", "X4RSCALK5", "X5RSCALK5",
   "X6RSCALK5", "X7RSCALK5", "X8RSCALK5", "X9RSCALK5",
   "X1TCHCON", "X2TCHCON", "X4TCHCON", "X6TCHCON", "X7TCHCON", "X8TCHCON", "X9TCHCON",
   "X1TCHAPP", "X2TCHAPP", "X4TCHAPP", "X6TCHAPP", "X7TCHAPP", "X8TCHAPP", "X9TCHAPP",
   "X1TCHEXT", "X2TCHEXT", "X4TCHEXT", "X6TCHEXT", "X7TCHEXT", "X8TCHEXT", "X9TCHEXT",
   "X1TCHINT", "X2TCHINT", "X4TCHINT", "X6TCHINT", "X7TCHINT", "X8TCHINT", "X9TCHINT",
   "X_RACETH_R", "X1KAGE", "X1FIRKDG", "X2FIRKDG",
   "X1HPARNT", "X2HPARNT", "X4HPARNT",
   "W1C0", "W2C0", "W3C0", "W4C0", "W5C0", "W6C0", "W7C0", "W8C0", "W9C0",
   "CHILDID"]

/-- Width and dtype from the declared type token
(`extract_ecls_variables.py` lines 70-82): a `strN` token carries its width
in the token (the uncaught `ValueError` of `int(var_type[3:])` is an
`error` result), `byte`/`int`/`long` map to width 7, `float`/`double` to
width 11, anything else to width 10 as text. -/
def eclsWidthDtype (varType : String) : Except String (Nat × Dtype) :=
  if listStartsWith ['s', 't', 'r'] varType.data then
    match pyNatChars? (varType.data.drop 3) with
    | some w => .ok (w, .str)
    | none => .error "ValueError: invalid literal for int"
  else if varType = "byte" ∨ varType = "int" ∨ varType = "long" then .ok (7, .int)
  else if varType = "float" ∨ varType = "double" then .ok (11, .float)
  else .ok (10, .str)

/-- One iteration of the `extract_ecls_variables.py` dictionary loop
(lines 48-92), threading the current record-line counter and the
accumulated spec list.  A line may update the record-line counter and
also declare a column; the two `if` blocks are sequential in the source. -/
def eclsParseLineStep (required : List String) (st : Nat × List VarSpec) (line : String) :
    Except String (Nat × List VarSpec) :=
  let cur :=
    if containsSub lineMarkerPat line.data then
      match searchMarker lineMarkerPat line.data with
      | some n => n
      | none => st.1
    else st.1
  if containsSub colMarkerPat line.data then
    match searchMarker colMarkerPat line.data with
    | some colPos =>
      let parts := pySplitWs line
      match parts.findIdx? (fun p => containsSub columnWord p.data) with
      | some colIdx =>
        if parts.length > colIdx + 2 then
          let varType := parts.getD (colIdx + 1) ""
          let varName := parts.getD (colIdx + 2) ""
          match eclsWidthDtype varType with
          | .ok (w, dt) =>
            if required.contains (upperStr varName) then
              .ok (cur, st.2 ++ [⟨upperStr varName, cur, colPos, w, dt⟩])
            else .ok (cur, st.2)
          | .error e => .error e
        else .ok (cur, st.2)
      | none => .ok (cur, st.2)
    | none => .ok (cur, st.2)
  else .ok (cur, st.2)

/-- Fold of `eclsParseLineStep` over the dictionary lines, short-circuiting
on the uncaught `ValueError`. -/
def eclsParseAux (required : List String) : List String → Nat × List VarSpec →
    Except String (Nat × List VarSpec)
  | [], st => .ok st
  | l :: ls, st =>
    match eclsParseLineStep required st l with
    | .ok st2 => eclsParseAux required ls st2
    | .error e => .error e

/-- `var_specs` produced by the `extract_ecls_variables.py` parse loop
(initial record-line counter 1, empty spec list). -/
def varSpecsWith (required : List String) (lines : List String) :
    Except String (List VarSpec) :=
  (eclsParseAux required lines (1, [])).map (fun st => st.2)

/-- The `extract_ecls_variables.py` schema parse. -/
def varSpecsEcls (lines : List String) : Except String (List VarSpec) :=
  varSpecsWith REQUIRED_VARS_ECLS lines

/-! ## Schema Parser, discovery variant (`data_extraction.py` lines 19-49)

`all_dict_variables` is a Python dict keyed by the upper-cased name; its
guard is `if col_index and len(parts) > col_index + 2`, which is falsy both
when no token contains `_column` and when that token is the first token of
the line (index 0). -/

/-- Value stored per variable by `data_extraction.py`. -/
structure DXEntry : Type where
  line : Nat
  column : Nat
  vtype : String
deriving DecidableEq, Repr

/-- Python dict insertion: overwrite in place if the key is present,
append otherwise. -/
def dictInsert {α : Type} : List (String × α) → String → α → List (String × α)
  | [], k, v => [(k, v)]
  | (k0, v0) :: rest, k, v =>
    if k0 = k then (k0, v) :: rest else (k0, v0) :: dictInsert rest k v

/-- One iteration of the `data_extraction.py` discovery loop (lines 23-49),
including the `if col_index and ...` truthiness guard that also rejects
token index 0. -/
def dxParseLineStep (st : Nat × List (String × DXEntry)) (line : String) :
    Nat × List (String × DXEntry) :=
  let cur :=
    if containsSub lineMarkerPat line.data then
      match searchMarker lineMarkerPat line.data with
      | some n => n
      | none => st.1
    else st.1
  if containsSub colMarkerPat line.data then
    match searchMarker colMarkerPat line.data with
    | some colStart =>
      let parts := pySplitWs line
      match parts.findIdx? (fun p => containsSub columnWord p.data) with
      | some colIdx =>
        if colIdx ≠ 0 ∧ parts.length > colIdx + 2 then
          (cur, dictInsert st.2 (upperStr (parts.getD (colIdx + 2) ""))
            ⟨cur, colStart, parts.getD (colIdx + 1) ""⟩)
        else (cur, st.2)
      | none => (cur, st.2)
    | none => (cur, st.2)
  else (cur, st.2)

/-- `all_dict_variables` after the `data_extraction.py` discovery loop. -/
def dxAllVars (lines : List String) : List (String × DXEntry) :=
  (lines.foldl dxParseLineStep (1, [])).2

/-! ## Schema Parser, gap width policy (`extraction1.py` lines 96-191) -/

/-- First-pass column record of `extraction1.py` (`all_cols` entries). -/
structure ColSpec : Type where
  name : String
  line : Nat
  col : Nat
  vtype : String
deriving DecidableEq, Repr

/-- One iteration of the `extraction1.py` first pass (lines 105-139): the
stripped line is searched for a record-line marker (which `continue`s), then
for a column marker; the unstripped line is tokenised, the first token
containing `_column` located (`StopIteration` continues), and a `ColSpec`
appended when a type and name token follow. -/
def ext1Scan (st : Nat × List ColSpec) (raw : String) : Nat × List ColSpec :=
  let line := pyStrip raw
  match searchMarker lineMarkerPat line.data with
  | some n => (n, st.2)
  | none =>
    match searchMarker colMarkerPat line.data with
    | none => st
    | some colStart =>
      let parts := pySplitWs raw
      match parts.findIdx? (fun p => containsSub columnWord p.data) with
      | none => st
      | some colIdx =>
        if parts.length ≤ colIdx + 2 then st
        else
          (st.1, st.2 ++ [⟨upperStr (parts.getD (colIdx + 2) ""), st.1, colStart,
            lowerStr (parts.getD (colIdx + 1) "")⟩])

/-- `all_cols` after the `extraction1.py` first pass. -/
def ext1AllCols (lines : List String) : List ColSpec :=
  (lines.foldl ext1Scan (1, [])).2

/-- Stable insertion into a column-sorted list: the new element goes after
every element with a smaller-or-equal column, as Python's stable sort
keeps insertion order among equal keys. -/
def insSortedByCol (x : ColSpec) : List ColSpec → List ColSpec
  | [] => [x]
  | y :: ys => if y.col ≤ x.col then y :: insSortedByCol x ys else x :: y :: ys

/-- Stable sort by column offset (Python `specs.sort(key=lambda d: d["col"])`). -/
def sortByCol (l : List ColSpec) : List ColSpec :=
  l.foldl (fun acc x => insSortedByCol x acc) []

/-- `cols_by_line[ln]` after the in-place sort of `extraction1.py` line 148. -/
def lineSpecsSorted (allCols : List ColSpec) (ln : Nat) : List ColSpec :=
  sortByCol (allCols.filter (fun s => s.line == ln))

/-- Effective width of `extraction1.py` lines 147-170: within its record
line the width is the gap to the next column offset, the last field on the
line receives the generous fixed width 20, and the per-spec lookup takes the
first entry matching the spec's name and column (the `for ... else` default
is also 20). -/
def gapWidth (allCols : List ColSpec) (s : ColSpec) : Nat :=
  let specs := lineSpecsSorted allCols s.line
  match specs.findIdx? (fun t => t.name == s.name && t.col == s.col) with
  | some i =>
    match specs[i + 1]? with
    | some nxt => nxt.col - s.col
    | none => 20
  | none => 20

/-- Stata-type to dtype mapping of `extraction1.py` lines 173-181 (the
vtype was lower-cased by the first pass). -/
def dtype1 (vtype : String) : Dtype :=
  if listStartsWith ['s', 't', 'r'] vtype.data then .str
  else if vtype = "byte" ∨ vtype = "int" ∨ vtype = "long" then .int
  else if vtype = "float" ∨ vtype = "double" then .float
  else .str

/-- `REQUIRED_VARS` of `extraction1.py` (lines 12-94), as the concatenation
of its seven category lists.  The source then applies `sorted(set(...))`,
which only de-duplicates and re-orders; the list's one and only use is the
membership test on line 161, which is unchanged by that normalisation. -/
def REQUIRED_VARS_1 : List String :=
  ["X2FSRAW2", "X2FSSCAL2", "X2FSSTAT2",
   "X2FSADRA2", "X2FSADSC2", "X2FSADST2",
   "X2FSCHRA", "X2FSCHSC", "X2FSCHST",
   "X4FSRAW2", "X4FSSCAL2", "X4FSSTAT2",
   "X4FSADRA2", "X4FSADSC2", "X4FSADST2",
   "X4FSCHRA", "X4FSCHSC", "X4FSCHST",
   "X7FSADRA2", "X7FSADSC2", "X7FSADST2",
   "X8FSADRA2", "X8FSADSC2", "X8FSADST2",
   "X9FSRAW2", "X9FSSCAL2", "X9FSSTAT2",
   "X9FSADRA2", "X9FSADSC2", "X9FSADST2",
   "X9FSCHRA", "X9FSCHSC", "X9FSCHST",
   "X1TCHCON", "X2TCHCON", "X4TCHCON", "X6TCHCON",
   "X1TCHAPP", "X2TCHAPP", "X4TCHAPP", "X6TCHAPP",
   "X1TCHEXT", "X2TCHEXT", "X4TCHEXT", "X6TCHEXT",
   "X1TCHINT", "X2TCHINT", "X4TCHINT", "X6TCHINT",
   "X2CLSNSS", "X4CLSNSS", "X6CLSNSS", "X7CLSNSS",
   "X2CNFLCT", "X4CNFLCT", "X6CNFLCT", "X7CNFLCT",
   "X1ATTNFS", "X2ATTNFS", "X4ATTNFS", "X4KATTNFS",
   "X1INBCNT", "X2INBCNT", "X4INBCNT", "X4KINBCNT",
   "X9ATTMCQ", "X9INTMCQ",
   "CHILDID", "PARENTID", "PSUID",
   "S1_ID", "S2_ID", "S3_ID", "S4_ID", "S5_ID", "S6_ID", "S7_ID", "S8_ID", "S9_ID",
   "X_CHSEX_R", "X_RACETHP_R",
   "X1KAGE_R", "X2KAGE_R",
   "X1FIRKDG",
   "X1HPARNT", "X2HPARNT", "X4HPARNT", "X6HPARNT", "X7HPARNT",
   "W1C0", "W1P0", "W2P0", "W12P0",
   "W4CF4P_20", "W6CS6P_20", "W7C7P_20", "W9C9P_20",
   "X2SSCALK5", "X4SSCALK5", "X6SSCALK5", "X7SSCALK5", "X8SSCALK5", "X9SSCALK5"]

/-- `var_specs` of `extraction1.py` lines 159-191: filter `all_cols` to the
required names in first-pass order and attach the gap width and dtype. -/
def varSpecs1Gen (required : List String) (lines : List String) : List VarSpec :=
  let allCols := ext1AllCols lines
  (allCols.filter (fun s => required.contains s.name)).map (fun s =>
    ⟨s.name, s.line, s.col, gapWidth allCols s, dtype1 s.vtype⟩)

/-- The `extraction1.py` schema parse. -/
def varSpecs1 (lines : List String) : List VarSpec :=
  varSpecs1Gen REQUIRED_VARS_1 lines

/-- Width of the first spec with a given name, for stating the width-policy
comparison. -/
def lookupWidth (specs : List VarSpec) (n : String) : Option Nat :=
  (specs.find? (fun s => s.name == n)).map (fun s => s.width)

/-- Width assigned to a name by the declared-type policy of
`extract_ecls_variables.py`, `none` when the parse fails or the name is
absent. -/
def eclsWidthOf (lines : List String) (n : String) : Option Nat :=
  match varSpecsEcls lines with
  | .ok specs => lookupWidth specs n
  | .error _ => none

/-! ## Record Extractor accumulation loop

`extract_ecls_variables.py` lines 111-147, `extraction0.py` lines 122-154
and `data_extraction.py` lines 152-225 share the same structure: strip the
trailing newline, append to the buffer, and when the buffer holds exactly
`LINES_PER_RECORD` lines decode one row and clear the buffer.  The row
decoding body is irrelevant to the accumulation claims and is passed in as
a function. -/

/-- The 27-lines-per-subject constant (literal `27` in
`extract_ecls_variables.py` line 122 and `extraction0.py` line 129,
`LINES_PER_CHILD = 27` in `data_extraction.py` line 153). -/
def LINES_PER_RECORD : Nat := 27

/-- One iteration of the accumulation loop, with row type `ρ`. -/
def extractStep {ρ : Type} (decode : List String → ρ) (recLen : Nat)
    (st : List ρ × List String) (line : String) : List ρ × List String :=
  let buf := st.2 ++ [rstripNl line]
  if buf.length = recLen then (st.1 ++ [decode buf], []) else (st.1, buf)

/-- Final state of the accumulation loop over the whole flat file. -/
def dataRowsLoop {ρ : Type} (decode : List String → ρ) (recLen : Nat)
    (lines : List String) : List ρ × List String :=
  lines.foldl (extractStep decode recLen) ([], [])

/-- `data_rows` at end of input: emitted rows only, the trailing partial
buffer is discarded. -/
def dataRows {ρ : Type} (decode : List String → ρ) (lines : List String) : List ρ :=
  (dataRowsLoop decode LINES_PER_RECORD lines).1

/-! ## The `extraction1.py` accumulation loop (lines 211-258)

That variant compares `len(current_record) == LINE_COUNT`, and the name
`LINE_COUNT` is bound nowhere in the script (its only occurrence is the
comparison on line 218), so evaluating the condition raises `NameError`.
The global lookup is modelled explicitly. -/

/-- Result of looking up the name `LINE_COUNT` in the `extraction1.py`
globals: the script never binds it, so the lookup fails. -/
def ext1LineCountLookup : Option Nat := none

/-- One iteration of the `extraction1.py` loop: an already-raised exception
propagates; otherwise the line is buffered and the `== LINE_COUNT`
comparison is evaluated, raising `NameError` when the name is unbound. -/
def ext1Step {ρ : Type} (decode : List String → ρ)
    (st : Except String (List ρ × List String)) (line : String) :
    Except String (List ρ × List String) :=
  match st with
  | .error e => .error e
  | .ok (rows, buf) =>
    let buf2 := buf ++ [rstripNl line]
    match ext1LineCountLookup with
    | none => .error "NameError: name LINE_COUNT is not defined"
    | some recLen =>
      if buf2.length = recLen then .ok (rows ++ [decode buf2], []) else .ok (rows, buf2)

/-- The `extraction1.py` read loop over the flat file. -/
def ext1DataRows {ρ : Type} (decode : List String → ρ) (lines : List String) :
    Except String (List ρ × List String) :=
  lines.foldl (ext1Step decode) (.ok ([], []))

/-- Rows visible after the loop: none when the loop died on an exception. -/
def ext1RowsOf {ρ : Type} : Except String (List ρ × List String) → List ρ
  | .ok (rows, _) => rows
  | .error _ => []

/-! ## Table Merger

All three merging scripts first normalise the identifier columns with
`astype(str).str.strip()` and then left-join the canonical table with the
extracted table.  `extraction1.py` lines 299-305 additionally pass
`validate="1:1"`; `extract_ecls_variables.py` line 176 and `extraction0.py`
line 165 pass nothing.  A table is a list of rows, each an identifier plus
an opaque payload standing for the remaining columns; a merged row pairs a
canonical row with the matching extracted payload, or `none` for the
missing-marker fill of an unmatched canonical row. -/

/-- One table row: join identifier plus the row's other column values. -/
structure SRow (α : Type) : Type where
  id : String
  vals : α
deriving DecidableEq, Repr

/-- Identifier normalisation applied by the scripts before merging
(`astype(str).str.strip()` on the id column). -/
def stripIds {α : Type} (t : List (SRow α)) : List (SRow α) :=
  t.map (fun r => ⟨pyStrip r.id, r.vals⟩)

/-- Extracted rows whose identifier equals the given key. -/
def matchRows {β : Type} (ext : List (SRow β)) (cid : String) : List (SRow β) :=
  ext.filter (fun e => decide (e.id = cid))

/-- Contribution of one canonical row to a pandas left join: the
missing-marker row when nothing matches, one output row per match
otherwise. -/
def leftJoinRow {α β : Type} (ext : List (SRow β)) (c : SRow α) :
    List (SRow α × Option β) :=
  match matchRows ext c.id with
  | [] => [(c, none)]
  | m :: ms => (m :: ms).map (fun e => (c, some e.vals))

/-- Pandas `how="left"` merge on the identifier: canonical rows in order,
each contributing its matches (or a missing-marker row). -/
def leftJoin {α β : Type} : List (SRow α) → List (SRow β) → List (SRow α × Option β)
  | [], _ => []
  | c :: cs, ext => leftJoinRow ext c ++ leftJoin cs ext

/-- The unvalidated merge of `extract_ecls_variables.py` /
`extraction0.py`: normalise both identifier columns, then plain left join. -/
def eclsMerge {α β : Type} (canon : List (SRow α)) (ext : List (SRow β)) :
    List (SRow α × Option β) :=
  leftJoin (stripIds canon) (stripIds ext)

/-- The validated merge of `extraction1.py` (`validate="1:1"`): pandas
checks that the join key is unique on each side and raises `MergeError`
otherwise. -/
def merge1to1 {α β : Type} (canon : List (SRow α)) (ext : List (SRow β)) :
    Except String (List (SRow α × Option β)) :=
  if ((stripIds canon).map (fun r => r.id)).Nodup then
    if ((stripIds ext).map (fun r => r.id)).Nodup then
      .ok (leftJoin (stripIds canon) (stripIds ext))
    else .error "MergeError: Merge keys are not unique in right dataset; not a one-to-one merge"
  else .error "MergeError: Merge keys are not unique in left dataset; not a one-to-one merge"

/-! ## Merge column handling -/

/-- `cols_to_drop` of `extraction1.py` lines 287-291: extracted columns
whose lower-cased name already exists in the canonical table, the
identifier excepted. -/
def colsToDrop1 (existingCols newCols : List String) : List String :=
  newCols.filter (fun c =>
    decide (lowerStr c ∈ existingCols.map lowerStr ∧ ¬ upperStr c = "CHILDID"))

/-- Extracted columns surviving `df_new.drop(columns=cols_to_drop)` in
`extraction1.py` line 296. -/
def remainingCols1 (existingCols newCols : List String) : List String :=
  newCols.filter (fun c => decide (c ∉ colsToDrop1 existingCols newCols))

/-- `cols_to_drop` of `data_extraction.py` lines 282-289 (upper-case
comparison, excluding the detected extracted identifier column). -/
def colsToDropDX (existingCols newCols : List String) (idColExtracted : String) :
    List String :=
  newCols.filter (fun c =>
    decide (upperStr c ∈ existingCols.map upperStr ∧ ¬ upperStr c = upperStr idColExtracted))

/-- Extracted columns surviving the drop of `data_extraction.py` line 293. -/
def remainingColsDX (existingCols newCols : List String) (idColExtracted : String) :
    List String :=
  newCols.filter (fun c => decide (c ∉ colsToDropDX existingCols newCols idColExtracted))

/-- Column set of a pandas merge result: left columns then right columns,
with the default suffixes attached only to exact (case-sensitive) name
clashes. -/
def pdMergeCols (leftCols rightCols : List String) : List String :=
  leftCols.map (fun c => if rightCols.contains c then c ++ "_x" else c)
    ++ rightCols.map (fun c => if leftCols.contains c then c ++ "_y" else c)

/-- Columns of the `extract_ecls_variables.py` merged output (line 176):
`df_new` is passed to `merge` unchanged, with no collision handling. -/
def eclsMergedCols (existingCols newCols : List String) : List String :=
  pdMergeCols existingCols newCols

/-! ## Identifier-column preconditions of the merge step -/

/-- The `extraction1.py` gate (lines 268-269): `RuntimeError` when the
extracted frame has no `CHILDID` column. -/
def extraction1IdGate (newCols : List String) : Except String Unit :=
  if "CHILDID" ∈ newCols then .ok ()
  else .error "RuntimeError: CHILDID is missing from the newly extracted data; cannot merge."

/-- Identifier-column search of `data_extraction.py` lines 262-265: first
extracted column containing `CHILDID` in its upper-casing. -/
def findIdColExtracted (cols : List String) : Option String :=
  cols.find? (fun c => containsSub ['C', 'H', 'I', 'L', 'D', 'I', 'D'] (upperStr c).data)

/-- Identifier-column search of `data_extraction.py` lines 268-271 on the
canonical side. -/
def findIdColExisting (cols : List String) : Option String :=
  cols.find? (fun c =>
    containsSub ['C', 'H', 'I', 'L', 'D', 'I', 'D'] (upperStr c).data
      || lowerStr c == "childid")

/-- Outcome of the `data_extraction.py` merge decision (lines 274 and
308-310). -/
inductive DXMergeOutcome : Type where
  | mergedOn : String → String → DXMergeOutcome
  | fallbackExisting : DXMergeOutcome
deriving DecidableEq, Repr

/-- `data_extraction.py` merge decision: merge when an identifier column is
found on both sides, otherwise continue with the canonical table alone
(`df_final = df_existing`), with no exception raised. -/
def dxMergeDecision (extractedCols existingCols : List String) : DXMergeOutcome :=
  match findIdColExtracted extractedCols, findIdColExisting existingCols with
  | some ie, some ix => .mergedOn ix ie
  | some _, none => .fallbackExisting
  | none, _ => .fallbackExisting

/-! ## General lemmas about the models -/

/-- Python slicing is take-then-drop: the window `[a, b)` clamped to the
list. -/
theorem pySlice_eq_take_drop (l : List Char) (a b : Nat) :
    pySlice l a b = (l.take b).drop a :=
  (List.drop_take b a l).symm

/-- The explicitly guarded slice of `data_extraction.py` computes exactly
the clamped Python slice. -/
theorem rawSliceDX_eq_take_drop (l : List Char) (a b : Nat) :
    rawSliceDX l a b = (l.take b).drop a := by
  unfold rawSliceDX
  by_cases h1 : l.length > a
  · rw [if_pos h1]
    by_cases h2 : l.length ≥ b
    · rw [if_pos h2, pySlice_eq_take_drop]
    · rw [if_neg h2, List.take_of_length_le (Nat.le_of_not_le h2)]
  · rw [if_neg h1]
    refine (List.drop_eq_nil_of_le ?_).symm
    calc (l.take b).length = min b l.length := List.length_take b l
    _ ≤ l.length := min_le_right _ _
    _ ≤ a := Nat.le_of_not_lt h1

/-- Unfolding the accumulation step when the buffer fills up. -/
theorem extractStep_full {ρ : Type} (decode : List String → ρ) (recLen : Nat)
    (rows : List ρ) (buf : List String) (line : String)
    (h : (buf ++ [rstripNl line]).length = recLen) :
    extractStep decode recLen (rows, buf) line
      = (rows ++ [decode (buf ++ [rstripNl line])], []) := by
  simp only [extractStep]
  rw [if_pos h]

/-- Unfolding the accumulation step when the buffer is still short. -/
theorem extractStep_underfull {ρ : Type} (decode : List String → ρ) (recLen : Nat)
    (rows : List ρ) (buf : List String) (line : String)
    (h : ¬ (buf ++ [rstripNl line]).length = recLen) :
    extractStep decode recLen (rows, buf) line = (rows, buf ++ [rstripNl line]) := by
  simp only [extractStep]
  rw [if_neg h]

/-- Loop invariant of the record-accumulation fold: starting from a buffer
shorter than the record length, the rows grow by one whole record per
`recLen` lines and the leftover buffer is the remainder. -/
theorem dataRowsLoop_invariant {ρ : Type} (decode : List String → ρ) (recLen : Nat)
    (hL : 0 < recLen) :
    ∀ (lines : List String) (rows : List ρ) (buf : List String),
      buf.length < recLen →
      (lines.foldl (extractStep decode recLen) (rows, buf)).1.length
          = rows.length + (buf.length + lines.length) / recLen ∧
        (lines.foldl (extractStep decode recLen) (rows, buf)).2.length
          = (buf.length + lines.length) % recLen := by
  intro lines
  induction lines with
  | nil =>
    intro rows buf hbuf
    simp only [List.foldl_nil, List.length_nil, Nat.add_zero]
    exact ⟨by simp [Nat.div_eq_of_lt hbuf], by simp [Nat.mod_eq_of_lt hbuf]⟩
  | cons l ls ih =>
    intro rows buf hbuf
    simp only [List.foldl_cons]
    by_cases hfull : (buf ++ [rstripNl l]).length = recLen
    · rw [extractStep_full decode recLen rows buf l hfull]
      have hlen : buf.length + 1 = recLen := by simpa using hfull
      obtain ⟨h1, h2⟩ := ih (rows ++ [decode (buf ++ [rstripNl l])]) [] hL
      refine ⟨?_, ?_⟩
      · rw [h1]
        simp only [List.length_append, List.length_singleton, List.length_nil,
          List.length_cons]
        have he : (0 : Nat) + ls.length = ls.length := by omega
        have he2 : buf.length + (ls.length + 1) = ls.length + recLen := by omega
        rw [he, he2, Nat.add_div_right _ hL]
        omega
      · rw [h2]
        simp only [List.length_nil, List.length_cons]
        have he : (0 : Nat) + ls.length = ls.length := by omega
        have he2 : buf.length + (ls.length + 1) = ls.length + recLen := by omega
        rw [he, he2, Nat.add_mod_right]
    · rw [extractStep_underfull decode recLen rows buf l hfull]
      have hlt : (buf ++ [rstripNl l]).length < recLen := by
        have hb : (buf ++ [rstripNl l]).length = buf.length + 1 := by simp
        omega
      obtain ⟨h1, h2⟩ := ih rows (buf ++ [rstripNl l]) hlt
      have hb : (buf ++ [rstripNl l]).length = buf.length + 1 := by simp
      have he : buf.length + 1 + ls.length = buf.length + (ls.length + 1) := by omega
      refine ⟨?_, ?_⟩
      · rw [h1, hb]
        simp only [List.length_cons]
        rw [he]
      · rw [h2, hb]
        simp only [List.length_cons]
        rw [he]

/-- In a table whose identifiers are pairwise distinct, at most one row
matches any given key. -/
theorem matchRows_length_le_one {β : Type} (cid : String) :
    ∀ ext : List (SRow β), (ext.map (fun r => r.id)).Nodup →
      (matchRows ext cid).length ≤ 1 := by
  intro ext
  induction ext with
  | nil => intro _; simp [matchRows]
  | cons e t ih =>
    intro hnd
    rw [List.map_cons, List.nodup_cons] at hnd
    obtain ⟨hnotin, hnd2⟩ := hnd
    unfold matchRows
    by_cases hid : e.id = cid
    · rw [List.filter_cons_of_pos (by simp [hid])]
      have hnil : t.filter (fun r => decide (r.id = cid)) = [] := by
        apply List.filter_eq_nil_iff.mpr
        intro u hu
        simp only [decide_eq_true_eq]
        intro hucid
        exact hnotin (by
          rw [← hid] at hucid
          exact List.mem_map.mpr ⟨u, hu, hucid.symm ▸ rfl⟩)
      rw [hnil]
      simp
    · rw [List.filter_cons_of_neg (by simp [hid])]
      exact ih hnd2

/-- With unique extracted identifiers, every canonical row contributes
exactly itself to the first projection of its join rows. -/
theorem leftJoinRow_map_fst {α β : Type} (ext : List (SRow β)) (c : SRow α)
    (hnd : (ext.map (fun r => r.id)).Nodup) :
    (leftJoinRow ext c).map Prod.fst = [c] := by
  unfold leftJoinRow
  rcases hm : matchRows ext c.id with _ | ⟨m, ms⟩
  · simp
  · have hlen : (m :: ms).length ≤ 1 := by
      rw [← hm]; exact matchRows_length_le_one c.id ext hnd
    have hms : ms = [] := by
      cases ms with
      | nil => rfl
      | cons x xs => simp at hlen
    subst hms
    simp

/-- First projection of the left join under unique extracted identifiers:
the canonical table itself, row for row. -/
theorem leftJoin_map_fst {α β : Type} (ext : List (SRow β))
    (hnd : (ext.map (fun r => r.id)).Nodup) :
    ∀ canon : List (SRow α), (leftJoin canon ext).map Prod.fst = canon := by
  intro canon
  induction canon with
  | nil => rfl
  | cons c cs ih =>
    unfold leftJoin
    rw [List.map_append, leftJoinRow_map_fst ext c hnd, ih]
    rfl

/-- A canonical row matched by no extracted identifier appears in the left
join with the missing marker for the whole extracted side. -/
theorem leftJoin_unmatched {α β : Type} (ext : List (SRow β)) (c : SRow α) :
    ∀ canon : List (SRow α), c ∈ canon → (∀ e ∈ ext, e.id ≠ c.id) →
      (c, (none : Option β)) ∈ leftJoin canon ext := by
  intro canon
  induction canon with
  | nil => intro h; exact absurd h (List.not_mem_nil c)
  | cons c0 cs ih =>
    intro hc hnm
    unfold leftJoin
    rw [List.mem_append]
    rcases List.mem_cons.mp hc with hceq | hmem
    · left
      subst hceq
      have hnil : matchRows ext c.id = [] := by
        apply List.filter_eq_nil_iff.mpr
        intro e he
        simp only [decide_eq_true_eq]
        exact hnm e he
      unfold leftJoinRow
      rw [hnil]
      exact List.mem_singleton.mpr rfl
    · right
      exact ih hmem hnm

/-- Mapping the identifier over a normalised table is stripping the raw
identifiers. -/
theorem stripIds_map_id {α : Type} (t : List (SRow α)) :
    (stripIds t).map (fun r => r.id) = t.map (fun r => pyStrip r.id) := by
  unfold stripIds
  rw [List.map_map]
  rfl

/-! ## Claim theorems -/

/-- C1, counterexample to the claim as stated: the claim quantifies over
every merge of the repository, but the `extract_ecls_variables.py` /
`extraction0.py` merge carries no `validate` argument, so on an extracted
table with two rows sharing the normalised identifier "1" it does not fail
at all - it silently returns two output rows for a one-row canonical
table, the row-multiplying join the claim rules out. -/
theorem c1_unvalidated_merge_multiplies_rows :
    (eclsMerge [SRow.mk "1" (0 : Nat)]
        [SRow.mk "1" (10 : Nat), SRow.mk "1 " (20 : Nat)]).length = 2 ∧
    ([SRow.mk "1" (0 : Nat)] : List (SRow Nat)).length = 1 ∧
    pyStrip "1" = pyStrip "1 " := by decide

/-- C1, amended: the `extraction1.py` merge, which passes
`validate="1:1"`, does fail with a reported `MergeError` whenever the
extracted table has two rows with the same normalised identifier. -/
theorem c1_validated_merge_rejects_duplicate_ids {α β : Type}
    (canon : List (SRow α)) (ext : List (SRow β)) (i j : Nat)
    (hi : i < ext.length) (hj : j < ext.length) (hij : i ≠ j)
    (hdup : pyStrip (ext.get ⟨i, hi⟩).id = pyStrip (ext.get ⟨j, hj⟩).id) :
    ∃ msg, merge1to1 canon ext = Except.error msg := by
  have hlen : (ext.map (fun r => pyStrip r.id)).length = ext.length :=
    List.length_map ext _
  have hnot : ¬ ((stripIds ext).map (fun r => r.id)).Nodup := by
    rw [stripIds_map_id]
    intro hnd
    have hget : (ext.map (fun r => pyStrip r.id)).get ⟨i, by rw [hlen]; exact hi⟩
        = (ext.map (fun r => pyStrip r.id)).get ⟨j, by rw [hlen]; exact hj⟩ := by
      simp only [List.get_eq_getElem, List.getElem_map]
      exact hdup
    have := (List.Nodup.get_inj_iff hnd).mp hget
    exact hij (congrArg Fin.val this)
  unfold merge1to1
  by_cases hc : ((stripIds canon).map (fun r => r.id)).Nodup
  · rw [if_pos hc, if_neg hnot]
    exact ⟨_, rfl⟩
  · rw [if_neg hc]
    exact ⟨_, rfl⟩

/-- Witness for the amended C1 theorem at a concrete duplicated table. -/
theorem c1_validated_merge_rejects_duplicate_ids_witness :
    ∃ msg, merge1to1 [SRow.mk "1" (0 : Nat)]
        [SRow.mk "1" (10 : Nat), SRow.mk "1 " (20 : Nat)] = Except.error msg :=
  c1_validated_merge_rejects_duplicate_ids _ _ 0 1 (by decide) (by decide)
    (by decide) (by decide)

/-- C2, counterexample to the claim as stated: in the
`extract_ecls_variables.py` / `extraction0.py` numeric decode there is no
sentinel handling, so the trimmed raw substrings "-9" and "-1" decode to
the literal negative integers, not to the missing marker. -/
theorem c2_ecls_decodes_sentinels_literally :
    decodeIntEcls "-9" = some (-9) ∧ decodeIntEcls "-1" = some (-1) := by decide

/-- C2, amended: in the `data_extraction.py` and `extraction1.py` decode
branches, a trimmed numeric substring equal to one of the sentinel codes
-9, -8, -7, -1 always yields the missing marker, whatever the numeric
parser would have returned. -/
theorem c2_guarded_decoders_map_sentinels_to_missing {α β : Type}
    (parseDX : String → Option α) (parse1 : String → Option β) (s : String)
    (h : s ∈ (["-9", "-8", "-7", "-1"] : List String)) :
    decodeNumDX parseDX s = none ∧ decodeNum1 parse1 s = none := by
  have hs : s = "-9" ∨ s = "-8" ∨ s = "-7" ∨ s = "-1" := by simpa using h
  rcases hs with rfl | rfl | rfl | rfl <;>
    exact ⟨by simp only [decodeNumDX]; rw [if_neg (by decide)],
      by simp only [decodeNum1]; rw [if_pos (by decide)]⟩

/-- Witness for the amended C2 theorem with the integer parser at "-9". -/
theorem c2_guarded_decoders_map_sentinels_to_missing_witness :
    decodeNumDX (fun v => pyIntChars? v.data) "-9" = none ∧
    decodeNum1 (fun v => pyIntChars? v.data) "-9" = none :=
  c2_guarded_decoders_map_sentinels_to_missing _ _ "-9" (by decide)

/-- C3: when the normalised extracted identifiers are pairwise distinct
(in particular when they form a strict subset of the canonical ones), the
left merge keeps the canonical rows exactly, in order - so the merged row
count equals the canonical row count - and every canonical row with no
matching extracted identifier carries the missing marker for the entire
extracted side. -/
theorem c3_unique_extracted_join_preserves_canonical {α β : Type}
    (canon : List (SRow α)) (ext : List (SRow β))
    (hnd : ((stripIds ext).map (fun r => r.id)).Nodup) :
    (eclsMerge canon ext).map Prod.fst = stripIds canon ∧
    ∀ c ∈ stripIds canon, (∀ e ∈ stripIds ext, e.id ≠ c.id) →
      (c, (none : Option β)) ∈ eclsMerge canon ext := by
  constructor
  · exact leftJoin_map_fst (stripIds ext) hnd (stripIds canon)
  · intro c hc hnm
    exact leftJoin_unmatched (stripIds ext) c (stripIds canon) hc hnm

/-- Witness for the C3 theorem: a two-row canonical table against a
one-row extracted table whose identifier set is a strict subset. -/
theorem c3_unique_extracted_join_preserves_canonical_witness :
    (eclsMerge [SRow.mk "1" (0 : Nat), SRow.mk "2" (0 : Nat)]
        [SRow.mk "1" (7 : Nat)]).map Prod.fst
      = stripIds [SRow.mk "1" (0 : Nat), SRow.mk "2" (0 : Nat)] ∧
    (SRow.mk "2" (0 : Nat), (none : Option Nat))
      ∈ eclsMerge [SRow.mk "1" (0 : Nat), SRow.mk "2" (0 : Nat)]
          [SRow.mk "1" (7 : Nat)] :=
  ⟨(c3_unique_extracted_join_preserves_canonical
      [SRow.mk "1" (0 : Nat), SRow.mk "2" (0 : Nat)] [SRow.mk "1" (7 : Nat)]
      (by decide)).1,
    (c3_unique_extracted_join_preserves_canonical
      [SRow.mk "1" (0 : Nat), SRow.mk "2" (0 : Nat)] [SRow.mk "1" (7 : Nat)]
      (by decide)).2 (SRow.mk "2" (0 : Nat)) (by decide) (by decide)⟩

/-- C4: over any flat file of N physical lines the accumulation loop of
the Record Extractor emits exactly N / 27 rows (integer division) and
leaves N mod 27 lines in the discarded trailing buffer; in particular 26
lines yield zero rows. -/
theorem c4_record_extractor_emits_floor {ρ : Type} (decode : List String → ρ)
    (lines : List String) :
    (dataRows decode lines).length = lines.length / LINES_PER_RECORD ∧
    (dataRowsLoop decode LINES_PER_RECORD lines).2.length
      = lines.length % LINES_PER_RECORD := by
  have h := dataRowsLoop_invariant decode LINES_PER_RECORD (by decide) lines [] []
    (by decide)
  unfold dataRows dataRowsLoop
  unfold dataRowsLoop at h
  simpa using h

/-- C5: on the dictionary line `_column(1) str8 CHILDID` - a
column-position marker token followed by a type token and a name token,
exactly the shape every field line of a Stata dictionary has - the
`data_extraction.py` discovery loop records nothing, because its guard
`if col_index and len(parts) > col_index + 2` treats the marker token's
index 0 as falsy; the sibling parser of `extract_ecls_variables.py`,
whose guard tests `col_idx is not None`, produces the FieldSpec
(CHILDID, record-line 1, column 1, width 8, text) that the claim and the
specification require. -/
theorem c5_truthiness_guard_skips_first_token_marker :
    dxAllVars ["_column(1) str8 CHILDID"] = [] ∧
    varSpecsEcls ["_column(1) str8 CHILDID"]
      = Except.ok [⟨"CHILDID", 1, 1, 8, Dtype.str⟩] :=
  ⟨rfl, rfl⟩

/-- C6, counterexample to the claim as stated: the
`extract_ecls_variables.py` merge performs no collision handling at all,
so the extracted column SCORE - which collides case-insensitively with
the canonical column score and is not the identifier - survives into the
merged column set instead of being dropped from the extracted side. -/
theorem c6_ecls_merge_keeps_colliding_column :
    lowerStr "SCORE" ∈ (["childid", "score"] : List String).map lowerStr ∧
    ¬ upperStr "SCORE" = "CHILDID" ∧
    "SCORE" ∈ eclsMergedCols ["childid", "score"] ["CHILDID", "SCORE"] := by
  decide

/-- C6, amended: in the `extraction1.py` and `data_extraction.py` merges
every extracted column that collides case-insensitively with a canonical
column is dropped from the extracted side before joining, the identifier
column excepted: any surviving extracted column that still collides must
be the identifier. -/
theorem c6_colliding_columns_dropped (existingCols newCols : List String)
    (idColExt c : String) :
    (c ∈ remainingCols1 existingCols newCols →
      lowerStr c ∈ existingCols.map lowerStr → upperStr c = "CHILDID") ∧
    (c ∈ remainingColsDX existingCols newCols idColExt →
      upperStr c ∈ existingCols.map upperStr → upperStr c = upperStr idColExt) := by
  constructor
  · intro hrem hcol
    obtain ⟨hcnew, hnot⟩ := List.mem_filter.mp hrem
    rw [decide_eq_true_eq] at hnot
    by_contra hne
    exact hnot (List.mem_filter.mpr ⟨hcnew, by
      rw [decide_eq_true_eq]; exact ⟨hcol, hne⟩⟩)
  · intro hrem hcol
    obtain ⟨hcnew, hnot⟩ := List.mem_filter.mp hrem
    rw [decide_eq_true_eq] at hnot
    by_contra hne
    exact hnot (List.mem_filter.mpr ⟨hcnew, by
      rw [decide_eq_true_eq]; exact ⟨hcol, hne⟩⟩)

/-- Witness for the amended C6 theorem: in both variants the only
case-insensitive collision surviving the drop is the identifier column. -/
theorem c6_colliding_columns_dropped_witness :
    upperStr "CHILDID" = "CHILDID" ∧ upperStr "CHILDID" = upperStr "childid" :=
  ⟨(c6_colliding_columns_dropped ["childid", "score"] ["CHILDID", "X9NEW"]
      "childid" "CHILDID").1 (by decide) (by decide),
    (c6_colliding_columns_dropped ["childid", "score"] ["CHILDID", "X9NEW"]
      "childid" "CHILDID").2 (by decide) (by decide)⟩

/-- C7, counterexample to the claim as stated: when the extracted table
has no identifier column, the `data_extraction.py` run does not abort -
its merge decision silently falls back to the canonical dataset alone and
the pipeline continues to write output. -/
theorem c7_dx_fallback_instead_of_abort :
    dxMergeDecision ["FOO", "BAR"] ["childid", "score"]
      = DXMergeOutcome.fallbackExisting := by decide

/-- C7, amended: the `extraction1.py` variant does abort with a reported
`RuntimeError` before producing any merged output whenever the extracted
table lacks the CHILDID column. -/
theorem c7_extraction1_gate_aborts (newCols : List String)
    (h : ¬ "CHILDID" ∈ newCols) :
    extraction1IdGate newCols = Except.error
      "RuntimeError: CHILDID is missing from the newly extracted data; cannot merge." := by
  unfold extraction1IdGate
  rw [if_neg h]

/-- Witness for the amended C7 theorem at a concrete identifier-free
column list. -/
theorem c7_extraction1_gate_aborts_witness :
    extraction1IdGate ["FOO"] = Except.error
      "RuntimeError: CHILDID is missing from the newly extracted data; cannot merge." :=
  c7_extraction1_gate_aborts ["FOO"] (by decide)

/-- C8: the Field Decoder's window is the substring
`[column_offset - 1, column_offset - 1 + width)` with the end clamped to
the line length (stated as take-then-drop, which clamps by construction);
the unguarded slice of `extract_ecls_variables.py` computes the same
window, and a line not longer than the start offset yields the empty raw
substring - both variants are total, so no input can raise. -/
theorem c8_field_decoder_clamps (spec : VarSpec) (l : List Char) :
    fieldWindowDX spec l
      = (l.take (spec.col - 1 + spec.width)).drop (spec.col - 1) ∧
    pySlice l (spec.col - 1) (spec.col - 1 + spec.width) = fieldWindowDX spec l ∧
    (l.length ≤ spec.col - 1 → fieldWindowDX spec l = []) := by
  unfold fieldWindowDX
  have h1 := rawSliceDX_eq_take_drop l (spec.col - 1) (spec.col - 1 + spec.width)
  refine ⟨h1, by rw [pySlice_eq_take_drop, h1], ?_⟩
  intro hlen
  rw [h1]
  apply List.drop_eq_nil_of_le
  calc (l.take (spec.col - 1 + spec.width)).length
      = min (spec.col - 1 + spec.width) l.length := List.length_take _ _
  _ ≤ l.length := min_le_right _ _
  _ ≤ spec.col - 1 := hlen

/-- Witness for the C8 theorem: a 2-character line against a field
starting at column 7 yields the empty raw substring. -/
theorem c8_field_decoder_clamps_witness :
    fieldWindowDX ⟨"A", 1, 7, 3, Dtype.int⟩ ['a', 'b'] = [] :=
  (c8_field_decoder_clamps ⟨"A", 1, 7, 3, Dtype.int⟩ ['a', 'b']).2.2 (by decide)

/-- C9: a three-line dictionary putting W1C0 (declared `double`) at column
1 and a second field at column 5 of record-line 1 separates the two width
policies: the declared-type policy of `extract_ecls_variables.py` assigns
W1C0 the fixed real-number width 11, while the gap policy of
`extraction1.py` assigns it the gap 5 - 1 = 4 to the next column. -/
theorem c9_width_policies_disagree :
    eclsWidthOf ["_line(1)", "_column(1) double W1C0",
      "_column(5) double X1TCHCON"] "W1C0" = some 11 ∧
    lookupWidth (varSpecs1 ["_line(1)", "_column(1) double W1C0",
      "_column(5) double X1TCHCON"]) "W1C0" = some 4 ∧
    (11 : Nat) ≠ 4 :=
  ⟨rfl, rfl, by decide⟩

/-- An exception raised inside the `extraction1.py` read loop propagates
past the remaining lines. -/
theorem ext1_foldl_error {ρ : Type} (decode : List String → ρ) (e : String) :
    ∀ ls : List String, ls.foldl (ext1Step decode) (.error e) = .error e := by
  intro ls
  induction ls with
  | nil => rfl
  | cons l t ih => rw [List.foldl_cons]; exact ih

/-- C10: the `extraction1.py` accumulation loop compares the buffer length
against the never-defined name LINE_COUNT, so on any non-empty flat file
it raises NameError while processing the first line, and the variant
emits zero extracted rows. -/
theorem c10_extraction1_loop_name_error {ρ : Type} (decode : List String → ρ)
    (lines : List String) (h : lines ≠ []) :
    ext1DataRows decode lines
      = Except.error "NameError: name LINE_COUNT is not defined" ∧
    ext1RowsOf (ext1DataRows decode lines) = [] := by
  cases lines with
  | nil => exact absurd rfl h
  | cons l ls =>
    have hrun : ext1DataRows decode (l :: ls)
        = Except.error "NameError: name LINE_COUNT is not defined" := by
      unfold ext1DataRows
      rw [List.foldl_cons]
      have hstep : ext1Step decode (Except.ok ([], [])) l
          = Except.error "NameError: name LINE_COUNT is not defined" := rfl
      rw [hstep]
      exact ext1_foldl_error decode _ ls
    exact ⟨hrun, by rw [hrun]; rfl⟩

/-- Witness for the C10 theorem on a one-line file. -/
theorem c10_extraction1_loop_name_error_witness :
    ext1DataRows (fun b => b.length) ["x"]
      = Except.error "NameError: name LINE_COUNT is not defined" ∧
    ext1RowsOf (ext1DataRows (fun b => b.length) ["x"]) = [] :=
  c10_extraction1_loop_name_error (fun b => b.length) ["x"] (by decide)
